import Mathlib

/-!
Formal model of the web-fetch subsystem of `Openclaw_PwC/tools/web_tool.py`:
the SSRF guard `_is_ssrf_blocked` (together with models of CPython
`urllib.parse` hostname extraction and `ipaddress` literal-IP parsing), the
TTL fetch cache (`_get_cached`, `_set_cache`, `clear_web_cache`), title
extraction (`_get_title`), and the fetch orchestrator `fetch_webpage`.

Modelling conventions:

* The Python `dict[str, tuple[str, float]]` cache is an insertion-ordered
  association list with unique keys (Python dict semantics: assignment to an
  existing key overwrites in place, otherwise appends; `del` removes the
  key's entry).  Timestamps are integers (`Int`), which is faithful for
  every comparison the code performs (`time.time() - timestamp <
  CACHE_TTL_SECONDS`).
* The network and the external libraries (`requests`, `BeautifulSoup`) are
  parameters of the orchestrator: a `NetResult` oracle stands for the one
  HTTP interaction of a call, and the title/body extractors are function
  arguments.  `requests` is assumed importable, so the `ImportError` branch
  of `fetch_webpage` is out of scope.
* Python string operations are modelled on `List Char`: Python slicing,
  `len`, `split`, `startswith` and friends are character based.
-/

namespace WebTool

/-! ## The fetch cache

Model of the module-level state `_fetch_cache: dict[str, tuple[str, float]]`
and of `_get_cached`, `_set_cache` and `clear_web_cache`.  State is passed
explicitly: each operation takes the cache (and, where the source reads
`time.time()`, the current clock) and returns the new cache.
-/

/-- The cache `dict`, as an insertion-ordered association list mapping a URL
to `(content, timestamp)`. -/
abbrev Cache := List (String × String × Int)

/-- Constant `CACHE_TTL_SECONDS = 300`. -/
def CACHE_TTL_SECONDS : Int := 300

/-- Constant `MAX_CONTENT_LENGTH = 5 * 1024 * 1024`. -/
def MAX_CONTENT_LENGTH : Nat := 5 * 1024 * 1024

/-- Constant `DEFAULT_MAX_CHARS = 50000`. -/
def DEFAULT_MAX_CHARS : Nat := 50000

/-- Python dict assignment `d[k] = v`: overwrite the entry in place if the
key is present, otherwise append it. -/
def dictSet (c : Cache) (k : String) (v : String × Int) : Cache :=
  match c with
  | [] => [(k, v)]
  | (k', v') :: rest => if k' = k then (k, v) :: rest else (k', v') :: dictSet rest k v

/-- Model of `_get_cached(url)`: return the content if the entry exists and
`time.time() - timestamp < CACHE_TTL_SECONDS`; if the entry exists but is
expired, `del _fetch_cache[url]` (lazy eviction) and return `None`. -/
def _get_cached (cache : Cache) (now : Int) (url : String) : Option String × Cache :=
  match cache.lookup url with
  | some (content, timestamp) =>
    if now - timestamp < CACHE_TTL_SECONDS then (some content, cache)
    else (none, cache.eraseP (fun p => p.1 == url))
  | none => (none, cache)

/-- Model of `_set_cache(url, content)`: `_fetch_cache[url] = (content, time.time())`. -/
def _set_cache (cache : Cache) (url content : String) (now : Int) : Cache :=
  dictSet cache url (content, now)

/-- Model of `clear_web_cache()`: `count = len(_fetch_cache); _fetch_cache.clear();
return f"Cleared {count} cached entries"`. -/
def clear_web_cache (cache : Cache) : String × Cache :=
  ("Cleared " ++ toString cache.length ++ " cached entries", [])

/-! ### Association-list lemmas -/

theorem lookup_dictSet_self (c : Cache) (u : String) (v : String × Int) :
    (dictSet c u v).lookup u = some v := by
  induction c with
  | nil => simp [dictSet, List.lookup]
  | cons hd tl ih =>
    obtain ⟨k, w⟩ := hd
    by_cases h : k = u
    · subst h
      simp [dictSet, List.lookup]
    · simp [dictSet, h, List.lookup, beq_eq_false_iff_ne.mpr (Ne.symm h), ih]

theorem lookup_eq_none_of_not_mem_keys (l : Cache) (u : String)
    (h : u ∉ l.map Prod.fst) : l.lookup u = none := by
  induction l with
  | nil => rfl
  | cons hd tl ih =>
    simp only [List.map_cons, List.mem_cons, not_or] at h
    simp [List.lookup, beq_eq_false_iff_ne.mpr h.1, ih h.2]

theorem lookup_eraseP_self (l : Cache) (u : String)
    (hnd : (l.map Prod.fst).Nodup) :
    (l.eraseP (fun p => p.1 == u)).lookup u = none := by
  induction l with
  | nil => rfl
  | cons hd tl ih =>
    obtain ⟨k, w⟩ := hd
    simp only [List.map_cons, List.nodup_cons] at hnd
    by_cases h : k = u
    · subst h
      simp only [List.eraseP_cons, beq_self_eq_true, cond_true]
      exact lookup_eq_none_of_not_mem_keys tl k hnd.1
    · simp only [List.eraseP_cons, beq_eq_false_iff_ne.mpr h, cond_false]
      simp [List.lookup, beq_eq_false_iff_ne.mpr (Ne.symm h), ih hnd.2]

theorem keys_dictSet (c : Cache) (u : String) (v : String × Int) :
    (dictSet c u v).map Prod.fst =
      if u ∈ c.map Prod.fst then c.map Prod.fst else c.map Prod.fst ++ [u] := by
  induction c with
  | nil => simp [dictSet]
  | cons hd tl ih =>
    obtain ⟨k, w⟩ := hd
    by_cases h : k = u
    · subst h
      simp [dictSet]
    · simp only [dictSet, if_neg h, List.map_cons, ih]
      by_cases hm : u ∈ tl.map Prod.fst
      · simp [hm, Ne.symm h]
      · simp [hm, Ne.symm h]

theorem keys_dictSet_nodup (c : Cache) (u : String) (v : String × Int)
    (hnd : (c.map Prod.fst).Nodup) : ((dictSet c u v).map Prod.fst).Nodup := by
  rw [keys_dictSet]
  by_cases hm : u ∈ c.map Prod.fst
  · simpa [hm] using hnd
  · simp [hm, List.nodup_append, hnd]

theorem mem_of_lookup_some (l : Cache) (u : String) (v : String × Int)
    (h : l.lookup u = some v) : (u, v) ∈ l := by
  induction l with
  | nil => simp [List.lookup] at h
  | cons hd tl ih =>
    obtain ⟨k, w⟩ := hd
    by_cases hk : u = k
    · subst hk
      simp only [List.lookup, beq_self_eq_true] at h
      cases h
      exact List.mem_cons_self _ _
    · simp only [List.lookup, beq_eq_false_iff_ne.mpr hk] at h
      exact List.mem_cons_of_mem _ (ih h)

theorem length_eraseP_of_lookup_some (l : Cache) (u : String) (v : String × Int)
    (h : l.lookup u = some v) :
    (l.eraseP (fun p => p.1 == u)).length = l.length - 1 := by
  apply List.length_eraseP_of_mem (mem_of_lookup_some l u v h)
  simp

/-! ## CPython `urllib.parse` hostname extraction

Model of the part of `urlsplit` / `ParseResult.hostname` that
`_is_ssrf_blocked` relies on: removal of the unsafe bytes `\t\r\n`, scheme
splitting, netloc delimitation at the first `/?#`, the mismatched-bracket
`ValueError`, and the `hostname` property (text after the last `@`, the
bracketed host or the text before the first `:`, lowercased, `None` when
empty).
-/

/-- Python `str.split(sep)` for a one-character separator. -/
def splitOnChar (sep : Char) : List Char → List (List Char)
  | [] => [[]]
  | c :: rest =>
    match splitOnChar sep rest with
    | [] => if c == sep then [[], []] else [[c]]
    | h :: t => if c == sep then [] :: h :: t else (c :: h) :: t

/-- Membership in `scheme_chars`: ASCII letters, digits and `+-.`.  (Lean's `Char.isAlpha`
is ASCII-only, matching the `isascii() and isalpha()` guard on the first
character and the explicit `scheme_chars` set.) -/
def isSchemeChar (c : Char) : Bool := c.isAlpha || c.isDigit || c == '+' || c == '-' || c == '.'

/-- The scheme-splitting step of `urlsplit`: if the text up to the first `:`
is a well-formed scheme (nonempty, leading ASCII letter, only
`scheme_chars`), return it lowercased together with the remainder; otherwise
return the input untouched. -/
def schemeSplit (l : List Char) : Option (List Char) × List Char :=
  match l.findIdx? (fun c => c == ':') with
  | some i =>
    if 0 < i && (l.headD ' ').isAlpha && (l.take i).all isSchemeChar then
      (some ((l.take i).map Char.toLower), l.drop (i + 1))
    else (none, l)
  | none => (none, l)

/-- Removal of `_UNSAFE_URL_BYTES_TO_REMOVE`: `urlsplit` deletes every `\t`, `\r`, `\n`. -/
def removeUnsafe (l : List Char) : List Char :=
  l.filter (fun c => !(c == '\t' || c == '\r' || c == '\n'))

/-- The scheme `urlparse(url).scheme` would report (`none` when the result
has no scheme). -/
def url_scheme (url : String) : Option String :=
  ((schemeSplit (removeUnsafe url.data)).1).map String.mk

/-- Model of the `ParseResult._hostinfo` host computation on a netloc: text after the
last `@`; then either the `[`-bracketed portion or the text before the
first `:`. -/
def hostFromNetloc (netloc : List Char) : List Char :=
  let hostinfo := (netloc.reverse.takeWhile (fun c => c != '@')).reverse
  if hostinfo.contains '[' then
    ((hostinfo.dropWhile (fun c => c != '[')).drop 1).takeWhile (fun c => c != ']')
  else hostinfo.takeWhile (fun c => c != ':')

/-- Model of `urlparse(url).hostname` (lowercased, `none` when empty), with
`Except.error` for the mismatched-bracket `ValueError` that `urlsplit`
raises — `_is_ssrf_blocked` turns that into "blocked". -/
def urlparse_hostname (url : String) : Except Unit (Option String) :=
  let l := removeUnsafe url.data
  let rest := (schemeSplit l).2
  let netloc :=
    if rest.take 2 = ['/', '/'] then
      (rest.drop 2).takeWhile (fun c => !(c == '/' || c == '?' || c == '#'))
    else []
  if (netloc.contains '[' && !netloc.contains ']')
      || (netloc.contains ']' && !netloc.contains '[') then
    Except.error ()
  else
    let host := hostFromNetloc netloc
    if host.isEmpty then Except.ok none
    else Except.ok (some (String.mk (host.map Char.toLower)))

/-! ## CPython `ipaddress` literal-address parsing

Model of `ipaddress.ip_address(host)`: IPv4 first
(`IPv4Address._ip_int_from_string`: exactly four dot-separated decimal
octets, each 1–3 ASCII digits, no leading zeros, value at most 255), then
IPv6 (`IPv6Address._ip_int_from_string`: colon-separated hextets of at most
4 hex digits, at most one `::` gap, optional embedded IPv4 tail).  Scope
ids (`%zone`) are not modelled; they can only make an IPv6 parse fail,
which never changes `_is_ssrf_blocked` since every blocked range is IPv4
and Python's `in` on a version mismatch is `False`.
-/

/-- Model of `_parse_octet`: nonempty, ASCII digits only, at most 3 characters, no
leading zero, at most 255. -/
def parse_octet (s : List Char) : Option Nat :=
  if s.isEmpty then none
  else if !s.all Char.isDigit then none
  else if s.length > 3 then none
  else if s ≠ ['0'] && s.headD '0' == '0' then none
  else
    let n := s.foldl (fun a c => a * 10 + (c.toNat - 48)) 0
    if n > 255 then none else some n

/-- Model of `IPv4Address._ip_int_from_string`: exactly four octets. -/
def parse_ipv4 (s : String) : Option Nat :=
  match (splitOnChar '.' s.data).map parse_octet with
  | [some a, some b, some c, some d] => some (a * 16777216 + b * 65536 + c * 256 + d)
  | _ => none

def isHexChar (c : Char) : Bool :=
  c.isDigit || ('a' ≤ c && c ≤ 'f') || ('A' ≤ c && c ≤ 'F')

def hexVal (c : Char) : Nat :=
  if c.isDigit then c.toNat - 48
  else if 'a' ≤ c && c ≤ 'f' then c.toNat - 87
  else c.toNat - 55

/-- Model of `_parse_hextet`: hex digits only, nonempty, at most 4 characters. -/
def parse_hextet (s : List Char) : Option Nat :=
  if s.isEmpty then none
  else if !s.all isHexChar then none
  else if s.length > 4 then none
  else some (s.foldl (fun a c => a * 16 + hexVal c) 0)

/-- A piece of an IPv6 address between colons: raw text, or an
already-numeric hextet produced by expanding an embedded IPv4 tail. -/
inductive V6Part where
  | raw (s : List Char)
  | num (n : Nat)

def v6partEmpty : V6Part → Bool
  | .raw s => s.isEmpty
  | .num _ => false

def v6partParse : V6Part → Option Nat
  | .raw s => parse_hextet s
  | .num n => some n

/-- Fold a list of parsed hextets into the address value (base 65536),
failing if any hextet failed. -/
def combineHextets (l : List (Option Nat)) : Option Nat :=
  l.foldl
    (fun acc h =>
      match acc, h with
      | some a, some v => some (a * 65536 + v)
      | _, _ => none)
    (some 0)

/-- Model of `IPv6Address._ip_int_from_string`. -/
def parse_ipv6 (str : String) : Option Nat :=
  let parts0 := (splitOnChar ':' str.data).map V6Part.raw
  if parts0.length < 3 then none
  else
    let partsO : Option (List V6Part) :=
      match parts0.getLast? with
      | some (.raw last) =>
        if last.contains '.' then
          match parse_ipv4 (String.mk last) with
          | some v => some (parts0.dropLast ++ [.num (v / 65536), .num (v % 65536)])
          | none => none
        else some parts0
      | _ => some parts0
    match partsO with
    | none => none
    | some parts =>
      if parts.length > 9 then none
      else
        let inner := ((parts.enum.filter
          (fun p => decide (0 < p.1) && decide (p.1 < parts.length - 1)
            && v6partEmpty p.2)).map Prod.fst)
        match inner with
        | [] =>
          if parts.length ≠ 8 then none
          else if v6partEmpty (parts.headD (.num 0)) then none
          else if v6partEmpty (parts.getLastD (.num 0)) then none
          else combineHextets (parts.map v6partParse)
        | [k] =>
          let hiO : Option Nat :=
            if v6partEmpty (parts.headD (.num 0)) then
              if k = 1 then some 0 else none
            else some k
          let loO : Option Nat :=
            if v6partEmpty (parts.getLastD (.num 0)) then
              if parts.length - k - 1 = 1 then some 0 else none
            else some (parts.length - k - 1)
          match hiO, loO with
          | some hi, some lo =>
            if 8 - (hi + lo) < 1 then none
            else
              combineHextets
                ((parts.take hi).map v6partParse
                  ++ List.replicate (8 - (hi + lo)) (some 0)
                  ++ (parts.drop (parts.length - lo)).map v6partParse)
          | _, _ => none
        | _ => none

/-- A parsed literal IP address (`ipaddress.ip_address`). -/
inductive IPAddr where
  | v4 (n : Nat)
  | v6 (n : Nat)

/-- Model of `ipaddress.ip_address(host)`: try IPv4, then IPv6; `ValueError`
(modelled as `none`) when neither parses. -/
def ip_address (s : String) : Option IPAddr :=
  match parse_ipv4 s with
  | some n => some (.v4 n)
  | none => (parse_ipv6 s).map .v6

/-! ## The SSRF guard -/

/-- An `ipaddress.ip_network` literal: network address and mask length. -/
structure IPNetwork where
  netaddr : Nat
  maskLen : Nat

/-- Membership `ip in network`: network address ≤ ip ≤ broadcast address, and `False`
on an IP-version mismatch (all configured ranges are IPv4). -/
def inNetwork (ip : IPAddr) (net : IPNetwork) : Bool :=
  match ip with
  | .v4 n => decide (net.netaddr ≤ n) && decide (n ≤ net.netaddr + (2 ^ (32 - net.maskLen) - 1))
  | .v6 _ => false

/-- Set `BLOCKED_HOSTS`. -/
def BLOCKED_HOSTS : List String := ["localhost", "127.0.0.1", "0.0.0.0", "::1", "[::1]"]

/-- List `BLOCKED_IP_RANGES`: `10.0.0.0/8`, `172.16.0.0/12`, `192.168.0.0/16`,
`127.0.0.0/8`, `169.254.0.0/16`. -/
def BLOCKED_IP_RANGES : List IPNetwork :=
  [⟨10 * 16777216, 8⟩,
   ⟨172 * 16777216 + 16 * 65536, 12⟩,
   ⟨192 * 16777216 + 168 * 65536, 16⟩,
   ⟨127 * 16777216, 8⟩,
   ⟨169 * 16777216 + 254 * 65536, 16⟩]

/-- Python `str.lower()` (`Char.toLower` is the ASCII case map, enough for
every hostname the code compares). -/
def pyLower (s : String) : String := String.mk (s.data.map Char.toLower)

/-- Model of `_is_ssrf_blocked(url)`: hostname in `BLOCKED_HOSTS` (lowercased), or a
literal IP inside one of `BLOCKED_IP_RANGES`; parse errors block (fail
closed). -/
def _is_ssrf_blocked (url : String) : Bool :=
  match urlparse_hostname url with
  | .error _ => true
  | .ok hosto =>
    let host := hosto.getD ""
    if BLOCKED_HOSTS.contains (pyLower host) then true
    else
      match ip_address host with
      | some ip => BLOCKED_IP_RANGES.any (inNetwork ip)
      | none => false

/-! ## Title extraction

`_get_title` runs BeautifulSoup's `soup.find("title")` on the parsed markup
and returns `title_tag.get_text(strip=True)`, or the literal `"(no title)"`
when no `<title>` element exists.  BeautifulSoup is an external library, so
markup is modelled at the granularity the code consumes it: a document is
the sequence of parsed elements, each carrying its tag name and its text
content; `find` returns the first element with the requested name and
`get_text(strip=True)` of a title's text node is `String.trim`.
-/

/-- A parsed markup element: tag name and text content. -/
structure Element where
  name : String
  text : String

/-- Python `str.strip()` (and `get_text(strip=True)` on one text node):
drop leading and trailing whitespace. -/
def pyStrip (s : String) : String :=
  String.mk (((s.data.dropWhile Char.isWhitespace).reverse.dropWhile Char.isWhitespace).reverse)

/-- Model of `soup.find(name)`: the first element carrying the tag name. -/
def bs_find (doc : List Element) (nm : String) : Option Element :=
  doc.find? (fun e => e.name == nm)

/-- Model of `_get_title`: `title_tag.get_text(strip=True) if title_tag else "(no title)"`. -/
def _get_title (doc : List Element) : String :=
  match bs_find doc "title" with
  | some t => pyStrip t.text
  | none => "(no title)"

/-! ## The fetch orchestrator `fetch_webpage` -/

/-- Python `str.startswith` (also for the tuple form, via `||`). -/
def startswith (s p : String) : Bool := p.data.isPrefixOf s.data

/-- The URL-normalization step of `fetch_webpage`:
`if not url.startswith(("http://", "https://")): url = "https://" + url`. -/
def normalize_url (url : String) : String :=
  if startswith url "http://" || startswith url "https://" then url
  else "https://" ++ url

/-- The single HTTP interaction of a `fetch_webpage` call, as an oracle:
which exception `requests.get`/`raise_for_status` raises, or the response
(final post-redirect URL, optional `Content-Length` header, body text). -/
inductive NetResult where
  | timeout
  | connectionError
  | httpError (status : Nat)
  | otherError (ename emsg : String)
  | success (finalUrl : String) (contentLength : Option Nat) (body : String)

/-- Observable outcome of a `fetch_webpage` call: the returned string, the
cache afterwards, and whether a network fetch was attempted. -/
structure FetchOutcome where
  output : String
  cache : Cache
  networkCalled : Bool
deriving DecidableEq

/-- The successful-response tail of `fetch_webpage`: truncate the body to
`MAX_CONTENT_LENGTH`, extract title and text, truncate to `max_chars` with
an explicit marker, compose `Title/URL/body`, and cache the composed result
under the originally requested (pre-redirect) URL. -/
def fetch_success (gt et : String → String) (finalUrl body url : String)
    (max_chars : Nat) (cache : Cache) (now : Int) : FetchOutcome :=
  let html := String.mk (body.data.take MAX_CONTENT_LENGTH)
  let title := gt html
  let text0 := et html
  let text :=
    if text0.data.length > max_chars then
      String.mk (text0.data.take max_chars)
        ++ "\n\n... (truncated at " ++ toString max_chars ++ " characters)"
    else text0
  let result := "Title: " ++ title ++ "\nURL: " ++ finalUrl ++ "\n\n" ++ text
  ⟨result, _set_cache cache url result now, true⟩

/-- The network stage of `fetch_webpage` (everything after the cache check):
each `requests` exception is converted to a descriptive error string; a
`Content-Length` header above `MAX_CONTENT_LENGTH` short-circuits to the
"too large" error. -/
def fetch_network (gt et : String → String) (net : NetResult) (url : String)
    (max_chars : Nat) (cache : Cache) (now : Int) : FetchOutcome :=
  match net with
  | .timeout => ⟨"Error: Request timed out for: " ++ url, cache, true⟩
  | .connectionError => ⟨"Error: Could not connect to: " ++ url, cache, true⟩
  | .httpError status => ⟨"Error: HTTP " ++ toString status ++ " for: " ++ url, cache, true⟩
  | .otherError ename emsg => ⟨"Error fetching webpage: " ++ ename ++ ": " ++ emsg, cache, true⟩
  | .success finalUrl contentLength body =>
    match contentLength with
    | some n =>
      if n > MAX_CONTENT_LENGTH then
        ⟨"Error: Page too large (" ++ toString (n / 1024 / 1024) ++ "MB). Maximum: 5MB",
          cache, true⟩
      else fetch_success gt et finalUrl body url max_chars cache now
    | none => fetch_success gt et finalUrl body url max_chars cache now

/-- Model of `fetch_webpage(url, max_chars)`: normalize the scheme, reject blocked
URLs, serve a truthy cached entry with the `(cached)` prefix, otherwise
fetch over the network.  `gt`/`et` are the title/body extractors
(`_get_title`/`_extract_text` over the external markup parser). -/
def fetch_webpage (gt et : String → String) (net : NetResult) (url : String)
    (max_chars : Nat) (cache : Cache) (now : Int) : FetchOutcome :=
  let url1 := normalize_url url
  if _is_ssrf_blocked url1 then
    ⟨"Error: URL blocked for security reasons (internal/private address): " ++ url1,
      cache, false⟩
  else
    let gc := _get_cached cache now url1
    match gc.1 with
    | some s =>
      if s = "" then fetch_network gt et net url1 max_chars gc.2 now
      else ⟨"(cached)\n\n" ++ s, gc.2, false⟩
    | none => fetch_network gt et net url1 max_chars gc.2 now

/-- Python substring containment `sub in s`. -/
def containsStr (s sub : String) : Bool := decide (sub.data <:+: s.data)

/-! ## Claim C4: cache round-trip -/

/-- Claim C4: for every URL `u` and content string `c`, `_set_cache(u, c)`
followed by `_get_cached(u)` with no clock advance beyond the TTL returns
exactly `c`. -/
theorem cache_roundtrip (c : Cache) (u content : String) (t now : Int)
    (h : now - t < CACHE_TTL_SECONDS) :
    (_get_cached (_set_cache c u content t) now u).1 = some content := by
  unfold _get_cached _set_cache
  rw [lookup_dictSet_self]
  simp [h]

theorem cache_roundtrip_witness :
    (_get_cached (_set_cache [] "https://example.com" "body" 0) 0 "https://example.com").1
      = some "body" :=
  cache_roundtrip [] "https://example.com" "body" 0 0 (by decide)

/-! ## Claim C3: cache expiry with lazy eviction -/

/-- Claim C3: for every URL `u` and content `c`, after `_set_cache(u, c)` and
a clock advance of at least the 300-second TTL, `_get_cached(u)` returns
`none`, removes `u`'s entry as a side effect of the lookup, and a subsequent
`clear_web_cache` reports a count that no longer includes the expired entry
(the cache had `(_set_cache ...).length` entries; the reported count is one
less). -/
theorem cache_expiry_lazy_eviction (c : Cache) (u content : String) (t now : Int)
    (hnd : (c.map Prod.fst).Nodup) (hexp : now - t ≥ CACHE_TTL_SECONDS) :
    (_get_cached (_set_cache c u content t) now u).1 = none
    ∧ ((_get_cached (_set_cache c u content t) now u).2).lookup u = none
    ∧ clear_web_cache ((_get_cached (_set_cache c u content t) now u).2)
        = ("Cleared " ++ toString ((_set_cache c u content t).length - 1) ++ " cached entries",
            []) := by
  have hlk := lookup_dictSet_self c u (content, t)
  have hnot : ¬(now - t < CACHE_TTL_SECONDS) := not_lt.mpr hexp
  unfold _get_cached _set_cache
  rw [hlk]
  simp only [if_neg hnot]
  refine ⟨trivial, ?_, ?_⟩
  · exact lookup_eraseP_self _ u (keys_dictSet_nodup c u (content, t) hnd)
  · unfold clear_web_cache
    rw [length_eraseP_of_lookup_some _ u (content, t) hlk]

theorem cache_expiry_lazy_eviction_witness :
    (_get_cached (_set_cache [("https://other.com", "x", 0)] "https://a.com" "body" 0)
        300 "https://a.com").1 = none
    ∧ ((_get_cached (_set_cache [("https://other.com", "x", 0)] "https://a.com" "body" 0)
        300 "https://a.com").2).lookup "https://a.com" = none
    ∧ clear_web_cache ((_get_cached
        (_set_cache [("https://other.com", "x", 0)] "https://a.com" "body" 0)
        300 "https://a.com").2) = ("Cleared 1 cached entries", []) := by
  have h := cache_expiry_lazy_eviction [("https://other.com", "x", 0)] "https://a.com" "body"
    0 300 (by decide) (by decide)
  exact ⟨h.1, h.2.1, h.2.2.trans (by decide)⟩

/-! ## Claim C7: clearing the cache -/

/-- Claim C7: `clear_web_cache` empties the cache and reports exactly the
number of entries present at the moment of the call; in particular, after
caching three distinct URLs (starting from an empty cache) it reports 3. -/
theorem clear_cache_count (c : Cache) (u1 u2 u3 s1 s2 s3 : String) (t1 t2 t3 : Int)
    (h12 : u1 ≠ u2) (h13 : u1 ≠ u3) (h23 : u2 ≠ u3) :
    clear_web_cache c = ("Cleared " ++ toString c.length ++ " cached entries", [])
    ∧ clear_web_cache (_set_cache (_set_cache (_set_cache [] u1 s1 t1) u2 s2 t2) u3 s3 t3)
        = ("Cleared 3 cached entries", []) := by
  refine ⟨rfl, ?_⟩
  unfold _set_cache
  simp only [dictSet, if_neg h12, if_neg h13, if_neg h23]
  unfold clear_web_cache
  rw [show ([(u1, s1, t1), (u2, s2, t2), (u3, s3, t3)] : Cache).length = 3 from rfl]
  decide

theorem clear_cache_count_witness :
    clear_web_cache [("https://a.com", "x", 0)] = ("Cleared 1 cached entries", [])
    ∧ clear_web_cache
        (_set_cache (_set_cache (_set_cache [] "https://a.com" "1" 0) "https://b.com" "2" 1)
          "https://c.com" "3" 2) = ("Cleared 3 cached entries", []) := by
  have h := clear_cache_count [("https://a.com", "x", 0)] "https://a.com" "https://b.com"
    "https://c.com" "1" "2" "3" 0 1 2 (by decide) (by decide) (by decide)
  exact ⟨h.1.trans (by decide), h.2⟩

/-! ## Claim C9: title extraction -/

/-- Claim C9: `_get_title` returns the trimmed text of the first `<title>`
element when one is present, and the placeholder literal `"(no title)"` when
no `<title>` element is present. -/
theorem get_title_first_or_placeholder (doc : List Element) :
    ((∀ e ∈ doc, e.name ≠ "title") → _get_title doc = "(no title)")
    ∧ (∀ pre t post, doc = pre ++ t :: post → t.name = "title" →
        (∀ e ∈ pre, e.name ≠ "title") → _get_title doc = pyStrip t.text) := by
  constructor
  · intro h
    unfold _get_title bs_find
    rw [List.find?_eq_none.mpr (fun e he => by simp [h e he])]
  · intro pre t post hdoc ht hpre
    subst hdoc
    unfold _get_title bs_find
    have : (pre ++ t :: post).find? (fun e => e.name == "title") = some t := by
      induction pre with
      | nil => simp [List.find?_cons_of_pos, ht]
      | cons e rest ih =>
        rw [List.cons_append, List.find?_cons_of_neg]
        · exact ih (fun x hx => hpre x (List.mem_cons_of_mem e hx))
        · simp [hpre e (List.mem_cons_self e rest)]
    rw [this]

/-! ### Orchestrator helper lemmas -/

/-- When the guard passes and the cache lookup misses, `fetch_webpage` is the
network stage run on the normalized URL and the post-lookup cache. -/
theorem fetch_webpage_eq_network (gt et : String → String) (net : NetResult) (url : String)
    (mc : Nat) (cache : Cache) (now : Int)
    (hnb : _is_ssrf_blocked (normalize_url url) = false)
    (hnc : (_get_cached cache now (normalize_url url)).1 = none) :
    fetch_webpage gt et net url mc cache now =
      fetch_network gt et net (normalize_url url) mc
        (_get_cached cache now (normalize_url url)).2 now := by
  unfold fetch_webpage
  simp only [hnb, Bool.false_eq_true, if_false, hnc]

/-- Every branch of the network stage reports that a fetch was attempted. -/
theorem fetch_network_networkCalled (gt et : String → String) (net : NetResult) (url : String)
    (mc : Nat) (cache : Cache) (now : Int) :
    (fetch_network gt et net url mc cache now).networkCalled = true := by
  cases net with
  | success finalUrl contentLength body =>
    cases contentLength with
    | some n =>
      simp only [fetch_network]
      split
      · rfl
      · rfl
    | none => rfl
  | timeout => rfl
  | connectionError => rfl
  | httpError status => rfl
  | otherError ename emsg => rfl

/-! ## Claim C2: blocked URLs are rejected before any fetch -/

/-- Claim C2: for every URL the SSRF guard classifies as blocked,
`fetch_webpage` returns the security-rejection string, performs no network
fetch, and leaves the cache unchanged. -/
theorem fetch_blocked_rejected (gt et : String → String) (net : NetResult) (url : String)
    (mc : Nat) (cache : Cache) (now : Int)
    (hb : _is_ssrf_blocked (normalize_url url) = true) :
    fetch_webpage gt et net url mc cache now =
      ⟨"Error: URL blocked for security reasons (internal/private address): "
          ++ normalize_url url,
        cache, false⟩ := by
  unfold fetch_webpage
  simp only [hb, if_true]

theorem fetch_blocked_rejected_witness :
    fetch_webpage (fun _ => "T") (fun s => s) NetResult.timeout "http://localhost:8080/admin"
        50000 [("https://a.com", "x", 0)] 0
      = ⟨"Error: URL blocked for security reasons (internal/private address): "
            ++ "http://localhost:8080/admin",
          [("https://a.com", "x", 0)], false⟩ := by
  have h := fetch_blocked_rejected (fun _ => "T") (fun s => s) NetResult.timeout
    "http://localhost:8080/admin" 50000 [("https://a.com", "x", 0)] 0 (by decide)
  exact h.trans (by decide)

/-! ## Claim C10: cached results are served only when the cached string is truthy -/

/-- Claim C10: `fetch_webpage` serves the cached entry (with the `(cached)`
prefix and no network call) only when the cached string is nonempty; a
cached empty string within its TTL is skipped and a fresh network fetch is
performed. -/
theorem cache_hit_requires_nonempty (gt et : String → String) (net : NetResult) (url : String)
    (mc : Nat) (cache : Cache) (now : Int)
    (hnb : _is_ssrf_blocked (normalize_url url) = false) :
    (∀ s, (_get_cached cache now (normalize_url url)).1 = some s → s ≠ "" →
      fetch_webpage gt et net url mc cache now =
        ⟨"(cached)\n\n" ++ s, (_get_cached cache now (normalize_url url)).2, false⟩)
    ∧ ((_get_cached cache now (normalize_url url)).1 = some "" →
      (fetch_webpage gt et net url mc cache now).networkCalled = true) := by
  constructor
  · intro s hs hne
    unfold fetch_webpage
    simp only [hnb, Bool.false_eq_true, if_false, hs, if_neg hne]
  · intro hs
    unfold fetch_webpage
    simp only [hnb, Bool.false_eq_true, if_false, hs]
    rw [if_pos trivial]
    exact fetch_network_networkCalled ..

theorem cache_hit_requires_nonempty_witness :
    fetch_webpage (fun _ => "T") (fun s => s) NetResult.timeout "https://example.com/" 50000
        [("https://example.com/", "content", 0)] 10
      = ⟨"(cached)\n\ncontent", [("https://example.com/", "content", 0)], false⟩
    ∧ (fetch_webpage (fun _ => "T") (fun s => s) NetResult.timeout "https://example.com/" 50000
        [("https://example.com/", "", 0)] 10).networkCalled = true := by
  constructor
  · have h := (cache_hit_requires_nonempty (fun _ => "T") (fun s => s) NetResult.timeout
      "https://example.com/" 50000 [("https://example.com/", "content", 0)] 10
      (by decide)).1 "content" (by decide) (by decide)
    exact h.trans (by decide)
  · exact (cache_hit_requires_nonempty (fun _ => "T") (fun s => s) NetResult.timeout
      "https://example.com/" 50000 [("https://example.com/", "", 0)] 10
      (by decide)).2 (by decide)

/-! ## Claim C5: truncation of the extracted body -/

/-- Claim C5: on a fresh fetch, when the extracted body text is longer than
`max_chars` the returned result's content portion is exactly the first
`max_chars` characters of the body followed by a truncation marker naming
the applied limit; a body of at most `max_chars` characters is returned
unmodified with no marker. -/
theorem fetch_truncation (gt et : String → String) (finalUrl url body : String)
    (mc : Nat) (cache : Cache) (now : Int)
    (hnb : _is_ssrf_blocked (normalize_url url) = false)
    (hnc : (_get_cached cache now (normalize_url url)).1 = none) :
    (fetch_webpage gt et (.success finalUrl none body) url mc cache now).output =
      "Title: " ++ gt (String.mk (body.data.take MAX_CONTENT_LENGTH))
        ++ "\nURL: " ++ finalUrl ++ "\n\n"
        ++ (if (et (String.mk (body.data.take MAX_CONTENT_LENGTH))).data.length > mc then
              String.mk ((et (String.mk (body.data.take MAX_CONTENT_LENGTH))).data.take mc)
                ++ "\n\n... (truncated at " ++ toString mc ++ " characters)"
            else et (String.mk (body.data.take MAX_CONTENT_LENGTH))) := by
  rw [fetch_webpage_eq_network gt et _ url mc cache now hnb hnc]
  simp only [fetch_network, fetch_success]

theorem fetch_truncation_witness :
    (fetch_webpage (fun _ => "T") (fun s => s)
        (.success "https://example.com/" none "hello world") "example.com" 5 [] 0).output
      = "Title: T\nURL: https://example.com/\n\nhello\n\n... (truncated at 5 characters)"
    ∧ (fetch_webpage (fun _ => "T") (fun s => s)
        (.success "https://example.com/" none "hi") "example.com" 5 [] 0).output
      = "Title: T\nURL: https://example.com/\n\nhi" := by
  constructor
  · have h := fetch_truncation (fun _ => "T") (fun s => s) "https://example.com/" "example.com"
      "hello world" 5 [] 0 (by decide) (by decide)
    exact h.trans (by decide)
  · have h := fetch_truncation (fun _ => "T") (fun s => s) "https://example.com/" "example.com"
      "hi" 5 [] 0 (by decide) (by decide)
    exact h.trans (by decide)

theorem get_title_first_or_placeholder_witness :
    _get_title [⟨"head", "x"⟩, ⟨"title", "  Hi  "⟩, ⟨"title", "Other"⟩] = "Hi"
    ∧ _get_title [⟨"p", "x"⟩] = "(no title)" := by
  constructor
  · have h := (get_title_first_or_placeholder
      [⟨"head", "x"⟩, ⟨"title", "  Hi  "⟩, ⟨"title", "Other"⟩]).2
      [⟨"head", "x"⟩] ⟨"title", "  Hi  "⟩ [⟨"title", "Other"⟩] rfl rfl (by decide)
    exact h.trans (by decide)
  · exact (get_title_first_or_placeholder [⟨"p", "x"⟩]).1 (by decide)

/-! ## Claim C1: SSRF guard classification -/

/-- IPv6 literals match none of the configured (all-IPv4) blocked ranges. -/
theorem any_inNetwork_v6 (m : Nat) : BLOCKED_IP_RANGES.any (inNetwork (.v6 m)) = false := by
  simp [BLOCKED_IP_RANGES, inNetwork]

/-- Claim C1: for every URL with an extractable hostname, `_is_ssrf_blocked`
returns true exactly when the (case-insensitively compared) hostname is one
of the `BLOCKED_HOSTS` literals or is a literal IPv4 address inside one of
the five `BLOCKED_IP_RANGES`; every other hostname — a public DNS name or a
public literal IP — yields false. -/
theorem ssrf_guard_classification (url h : String)
    (hh : urlparse_hostname url = Except.ok (some h)) :
    _is_ssrf_blocked url =
      (BLOCKED_HOSTS.contains (pyLower h)
        || (parse_ipv4 h).elim false (fun n => BLOCKED_IP_RANGES.any (inNetwork (.v4 n)))) := by
  unfold _is_ssrf_blocked
  rw [hh]
  simp only [Option.getD_some]
  cases hc : BLOCKED_HOSTS.contains (pyLower h) with
  | true => simp [hc]
  | false =>
    simp only [hc, Bool.false_eq_true, if_false, Bool.false_or]
    unfold ip_address
    cases hv4 : parse_ipv4 h with
    | some n => simp [Option.elim]
    | none =>
      cases hv6 : parse_ipv6 h with
      | some m => simp [Option.elim, any_inNetwork_v6]
      | none => simp [Option.elim]

theorem ssrf_guard_classification_witness :
    _is_ssrf_blocked "http://192.168.1.5/a" = true
    ∧ _is_ssrf_blocked "https://example.com/" = false := by
  constructor
  · exact (ssrf_guard_classification "http://192.168.1.5/a" "192.168.1.5" (by rfl)).trans
      (by decide)
  · exact (ssrf_guard_classification "https://example.com/" "example.com" (by rfl)).trans
      (by decide)

/-! ## Claim C6: scheme normalization -/

theorem url_scheme_of_startswith_http (u : String) (hs : startswith u "http://" = true) :
    url_scheme u = some "http" := by
  obtain ⟨t, ht⟩ := List.isPrefixOf_iff_prefix.mp hs
  unfold url_scheme
  rw [← ht]
  rfl

theorem url_scheme_of_startswith_https (u : String) (hs : startswith u "https://" = true) :
    url_scheme u = some "https" := by
  obtain ⟨t, ht⟩ := List.isPrefixOf_iff_prefix.mp hs
  unfold url_scheme
  rw [← ht]
  rfl

theorem startswith_append_self (p u : String) : startswith (p ++ u) p = true := by
  simp [startswith]

theorem normalize_url_idem (u : String) :
    normalize_url (normalize_url u) = normalize_url u := by
  unfold normalize_url
  by_cases hc : (startswith u "http://" || startswith u "https://") = true
  · simp only [if_pos hc]
  · rw [if_neg hc, if_pos (by simp [startswith_append_self])]

/-- Counterexample to claim C6 as stated: `"ftp://example.com"` carries the
URL scheme `ftp`, yet the normalization step does not leave it unchanged —
it prepends `https://`, because the code only tests for the literal
prefixes `http://` and `https://`. -/
theorem normalize_scheme_counterexample :
    url_scheme "ftp://example.com" = some "ftp"
    ∧ normalize_url "ftp://example.com" ≠ "ftp://example.com"
    ∧ normalize_url "ftp://example.com" = "https://" ++ "ftp://example.com" := by
  exact ⟨by decide, by decide, by decide⟩

/-- Claim C6 (amended): an input lacking any URL scheme gets `https://`
prepended before any other processing (the whole of `fetch_webpage` behaves
as if called on the normalized URL), and an input starting with the literal
`http://` or `https://` is left unchanged; inputs with any other scheme
(e.g. `ftp://`) also get `https://` prepended. -/
theorem normalize_url_amended (url : String) :
    (url_scheme url = none → normalize_url url = "https://" ++ url)
    ∧ ((startswith url "http://" || startswith url "https://") = true →
        normalize_url url = url)
    ∧ (∀ (gt et : String → String) (net : NetResult) (mc : Nat) (c : Cache) (now : Int),
        fetch_webpage gt et net url mc c now
          = fetch_webpage gt et net (normalize_url url) mc c now) := by
  refine ⟨?_, ?_, ?_⟩
  · intro h0
    have hor : (startswith url "http://" || startswith url "https://") = false := by
      cases h1 : startswith url "http://" with
      | true =>
        have := url_scheme_of_startswith_http url h1
        rw [h0] at this
        exact absurd this (by simp)
      | false =>
        cases h2 : startswith url "https://" with
        | true =>
          have := url_scheme_of_startswith_https url h2
          rw [h0] at this
          exact absurd this (by simp)
        | false => simp
    unfold normalize_url
    rw [if_neg (by simp [hor])]
  · intro h
    unfold normalize_url
    rw [if_pos h]
  · intro gt et net mc c now
    unfold fetch_webpage
    rw [normalize_url_idem]

theorem normalize_url_amended_witness :
    normalize_url "example.com" = "https://" ++ "example.com"
    ∧ normalize_url "http://localhost" = "http://localhost" := by
  constructor
  · exact (normalize_url_amended "example.com").1 (by decide)
  · exact (normalize_url_amended "http://localhost").2.1 (by decide)

/-! ## Claim C8: error-message taxonomy -/

theorem containsStr_self_append (p u : String) : containsStr (p ++ u) u = true := by
  have : u.data <:+: (p ++ u).data := by
    rw [String.data_append]
    exact ⟨p.data, [], by simp⟩
  simpa [containsStr] using this

theorem containsStr_append_of_left (p u sub : String) (h : containsStr p sub = true) :
    containsStr (p ++ u) sub = true := by
  have h1 : sub.data <:+: p.data := by simpa [containsStr] using h
  have h2 : p.data <:+: (p ++ u).data := by
    rw [String.data_append]
    exact ⟨[], u.data, by simp⟩
  simpa [containsStr] using h1.trans h2

theorem containsStr_append_right (a s sub : String) (h : containsStr s sub = true) :
    containsStr (a ++ s) sub = true := by
  have h1 : sub.data <:+: s.data := by simpa [containsStr] using h
  have h2 : s.data <:+: (a ++ s).data := by
    rw [String.data_append]
    exact ⟨a.data, [], by simp⟩
  simpa [containsStr] using h1.trans h2

/-- Counterexample to claim C8 as stated: on an oversized response
(Content-Length 6 MB) the returned error string is
`"Error: Page too large (6MB). Maximum: 5MB"`, which does not include the
offending URL (neither the full URL nor even its hostname). -/
theorem oversized_error_omits_url :
    (fetch_webpage (fun _ => "T") (fun s => s)
        (.success "https://example.com/" (some 6291456) "x")
        "https://example.com/" 50000 [] 0).output
      = "Error: Page too large (6MB). Maximum: 5MB"
    ∧ containsStr (fetch_webpage (fun _ => "T") (fun s => s)
        (.success "https://example.com/" (some 6291456) "x")
        "https://example.com/" 50000 [] 0).output "https://example.com/" = false
    ∧ containsStr (fetch_webpage (fun _ => "T") (fun s => s)
        (.success "https://example.com/" (some 6291456) "x")
        "https://example.com/" 50000 [] 0).output "example.com" = false := by
  exact ⟨by decide, by decide, by decide⟩

/-- Claim C8 (amended): no failure mode of `fetch_webpage` escapes as an
exception (the model is a total function into result strings); the
blocked-by-policy, timeout, connection-failure and HTTP-status error strings
include both the offending URL and a category hint; the oversized-response
and generic-exception error strings include a category hint but omit the
URL. -/
theorem error_messages_amended (gt et : String → String) (url finalUrl body ename emsg : String)
    (status n mc : Nat) (cache : Cache) (now : Int)
    (hnb : _is_ssrf_blocked (normalize_url url) = false)
    (hnc : (_get_cached cache now (normalize_url url)).1 = none) :
    (containsStr (fetch_webpage gt et .timeout url mc cache now).output
        (normalize_url url) = true
      ∧ containsStr (fetch_webpage gt et .timeout url mc cache now).output
          "timed out" = true)
    ∧ (containsStr (fetch_webpage gt et .connectionError url mc cache now).output
          (normalize_url url) = true
      ∧ containsStr (fetch_webpage gt et .connectionError url mc cache now).output
          "Could not connect" = true)
    ∧ (containsStr (fetch_webpage gt et (.httpError status) url mc cache now).output
          (normalize_url url) = true
      ∧ containsStr (fetch_webpage gt et (.httpError status) url mc cache now).output
          "HTTP" = true)
    ∧ (∀ u2 : String, _is_ssrf_blocked (normalize_url u2) = true →
        containsStr (fetch_webpage gt et .timeout u2 mc cache now).output
            (normalize_url u2) = true
        ∧ containsStr (fetch_webpage gt et .timeout u2 mc cache now).output
            "blocked for security reasons" = true)
    ∧ (n > MAX_CONTENT_LENGTH →
        containsStr (fetch_webpage gt et (.success finalUrl (some n) body) url mc cache now).output
          "too large" = true)
    ∧ containsStr (fetch_webpage gt et (.otherError ename emsg) url mc cache now).output
        "Error fetching webpage" = true := by
  refine ⟨⟨?_, ?_⟩, ⟨?_, ?_⟩, ⟨?_, ?_⟩, ?_, ?_, ?_⟩
  · rw [fetch_webpage_eq_network gt et _ url mc cache now hnb hnc]
    simp only [fetch_network]
    exact containsStr_self_append _ _
  · rw [fetch_webpage_eq_network gt et _ url mc cache now hnb hnc]
    simp only [fetch_network]
    exact containsStr_append_of_left _ _ _ (by decide)
  · rw [fetch_webpage_eq_network gt et _ url mc cache now hnb hnc]
    simp only [fetch_network]
    exact containsStr_self_append _ _
  · rw [fetch_webpage_eq_network gt et _ url mc cache now hnb hnc]
    simp only [fetch_network]
    exact containsStr_append_of_left _ _ _ (by decide)
  · rw [fetch_webpage_eq_network gt et _ url mc cache now hnb hnc]
    simp only [fetch_network]
    exact containsStr_self_append _ _
  · rw [fetch_webpage_eq_network gt et _ url mc cache now hnb hnc]
    simp only [fetch_network]
    exact containsStr_append_of_left _ _ _
      (containsStr_append_of_left _ _ _
        (containsStr_append_of_left "Error: HTTP " _ _ (by decide)))
  · intro u2 hb
    unfold fetch_webpage
    simp only [hb, if_true]
    constructor
    · exact containsStr_self_append _ _
    · exact containsStr_append_of_left _ _ _ (by decide)
  · intro hn
    rw [fetch_webpage_eq_network gt et _ url mc cache now hnb hnc]
    simp only [fetch_network]
    rw [if_pos hn]
    exact containsStr_append_of_left _ _ _
      (containsStr_append_of_left "Error: Page too large (" _ _ (by decide))
  · rw [fetch_webpage_eq_network gt et _ url mc cache now hnb hnc]
    simp only [fetch_network]
    exact containsStr_append_of_left _ _ _
      (containsStr_append_of_left _ _ _
        (containsStr_append_of_left "Error fetching webpage: " _ _ (by decide)))

theorem error_messages_amended_witness :
    containsStr (fetch_webpage (fun _ => "T") (fun s => s) NetResult.timeout
        "https://example.com/" 50000 [] 0).output "https://example.com/" = true
    ∧ containsStr (fetch_webpage (fun _ => "T") (fun s => s) NetResult.timeout
        "https://example.com/" 50000 [] 0).output "timed out" = true
    ∧ containsStr (fetch_webpage (fun _ => "T") (fun s => s) NetResult.timeout
        "http://localhost:8080/admin" 50000 [] 0).output
        "blocked for security reasons" = true := by
  have h := error_messages_amended (fun _ => "T") (fun s => s) "https://example.com/" "f" "b"
    "E" "m" 404 6291456 50000 [] 0 (by decide) (by decide)
  exact ⟨h.1.1, h.1.2, (h.2.2.2.1 "http://localhost:8080/admin" (by decide)).2⟩

end WebTool

